import Mathlib

/-!
Shallow embedding of the voice-ai-assistant dialogue core
(`app/services/financial_service.py`, `app/services/voice_service.py`,
`app/main.py`, `app/models/database.py`), together with proofs about the
financial after-hours slot-filling flow.

Python strings are modelled as Lean `String`, Python dicts
(`Dict[str, Any]` — in the deterministic fallback flow every value is a
string) as association lists, and the SQLAlchemy-backed store as an
explicit `DB` value threaded through the handlers.  The deterministic
fallback path is modelled (`openai_enabled = False`, i.e. demo mode); the
model-backed path is out of the embedded core.
-/

namespace VoiceAI

/-- Python `\s` whitespace class (ASCII part), as used by `str.split()`
and by the `[\s-]` separator class of the phone regex. -/
def isPySpace (c : Char) : Bool :=
  c = ' ' || c = '\t' || c = '\n' || c = '\r' || c = Char.ofNat 11 || c = Char.ofNat 12

/-- Lower-casing a string, `str.lower()` (ASCII; all keyword sets and cue
phrases in the source are ASCII). -/
def pyLower (s : String) : String :=
  ⟨s.toList.map Char.toLower⟩

/-- Whether `n` is a prefix of `h`, on character lists. -/
def leadsWith : List Char → List Char → Bool
  | [], _ => true
  | _ :: _, [] => false
  | a :: as, b :: bs => a = b && leadsWith as bs

/-- Whether `n` occurs as a contiguous sublist of `h`. -/
def subIn : List Char → List Char → Bool
  | n, [] => n.isEmpty
  | n, c :: t => leadsWith n (c :: t) || subIn n t

/-- Python `needle in hay` on strings (substring containment). -/
def strIn (needle hay : String) : Bool :=
  subIn needle.toList hay.toList

/-- Python `str.split()` with no argument: split on runs of whitespace,
dropping empty pieces.  Auxiliary: `acc` holds the current word reversed. -/
def splitAux : List Char → List Char → List String
  | [], acc => if acc.isEmpty then [] else [⟨acc.reverse⟩]
  | c :: rest, acc =>
    if isPySpace c then
      if acc.isEmpty then splitAux rest [] else ⟨acc.reverse⟩ :: splitAux rest []
    else
      splitAux rest (c :: acc)

/-- Python `str.split()`. -/
def pySplit (s : String) : List String :=
  splitAux s.toList []

/-- Python `' '.join(ws)`. -/
def joinWords : List String → String
  | [] => ""
  | [w] => w
  | w :: rest => w ++ " " ++ joinWords rest

/-- Python `str.title()` on character lists: a letter is upper-cased when
the previous character is not a letter, lower-cased otherwise.  The flag
records whether the previous character was alphabetic. -/
def pyTitleGo : Bool → List Char → List Char
  | _, [] => []
  | prevAlpha, c :: rest =>
    (if c.isAlpha then (if prevAlpha then c.toLower else c.toUpper) else c)
      :: pyTitleGo c.isAlpha rest

/-- Python `str.title()`. -/
def pyTitle (s : String) : String :=
  ⟨pyTitleGo false s.toList⟩

/-- Field sets: Python `Dict[str, str]` as an association list with
unique keys (insertion-ordered, as Python dicts are). -/
abbrev Dict := List (String × String)

/-- Python `d.get(k)`: `none` models both a missing key and `None`. -/
def dictGet : Dict → String → Option String
  | [], _ => none
  | (k', v) :: rest, k => if k' = k then some v else dictGet rest k

/-- Python `d[k] = v`: replace in place if the key exists, else append. -/
def dictSet : Dict → String → String → Dict
  | [], k, v => [(k, v)]
  | (k', v') :: rest, k, v =>
    if k' = k then (k', v) :: rest else (k', v') :: dictSet rest k v

/-- Python truthiness of `d.get(k)`: false for a missing key and for the
empty string, true for any non-empty string. -/
def getTruthy (d : Dict) (k : String) : Bool :=
  match dictGet d k with
  | none => false
  | some s => !(s = "")

/-! Model of `VoiceService.extract_phone_number`
(`app/services/voice_service.py`): `re.search` of the pattern
`(\+?1?[\s-]?)?\(?([0-9]{3})\)?[\s-]?([0-9]{3})[\s-]?([0-9]{4})`,
returning `+1` ++ groups 2, 3 and 4.  The matcher below reproduces the
regex engine on this pattern: leftmost start position first, each `?`
greedy (consume first, backtrack by not consuming). -/

/-- Separator class `[\s-]` of the phone pattern. -/
def isSepChar (c : Char) : Bool :=
  isPySpace c || c = '-'

/-- Take exactly `n` leading digits (`[0-9]{n}`), returning them and the
remaining characters. -/
def takeDigits : Nat → List Char → Option (List Char × List Char)
  | 0, s => some ([], s)
  | _ + 1, [] => none
  | n + 1, c :: rest =>
    if c.isDigit then
      match takeDigits n rest with
      | some (ds, r) => some (c :: ds, r)
      | none => none
    else none

/-- Greedy optional single character (`X?` for a one-character `X`):
try consuming a matching character first; if the continuation fails,
retry without consuming. -/
def optChar (p : Char → Bool) (s : List Char) (k : List Char → Option α) : Option α :=
  match s with
  | [] => k []
  | c :: rest =>
    if p c then
      match k rest with
      | some x => some x
      | none => k (c :: rest)
    else k (c :: rest)

/-- Attempt the phone pattern at the current position; on success return
the ten digits of groups 2, 3 and 4 (in order). -/
def matchPhoneAt (s : List Char) : Option (List Char) :=
  optChar (· = '+') s fun s1 =>
  optChar (· = '1') s1 fun s2 =>
  optChar isSepChar s2 fun s3 =>
  optChar (· = '(') s3 fun s4 =>
  match takeDigits 3 s4 with
  | none => none
  | some (g2, s5) =>
    optChar (· = ')') s5 fun s6 =>
    optChar isSepChar s6 fun s7 =>
    match takeDigits 3 s7 with
    | none => none
    | some (g3, s8) =>
      optChar isSepChar s8 fun s9 =>
      match takeDigits 4 s9 with
      | none => none
      | some (g4, _) => some (g2 ++ g3 ++ g4)

/-- Leftmost search of the phone pattern (`re.search`). -/
def searchPhone : List Char → Option (List Char)
  | [] => matchPhoneAt []
  | c :: rest =>
    match matchPhoneAt (c :: rest) with
    | some ds => some ds
    | none => searchPhone rest

/-- Model of `VoiceService.extract_phone_number`. -/
def extract_phone_number (text : String) : Option String :=
  match searchPhone text.toList with
  | some ds => some ("+1" ++ (⟨ds⟩ : String))
  | none => none

/-! Model of `VoiceService.extract_email`: `re.search` of
`\b[A-Za-z0-9._%+-]+@[A-Za-z0-9.-]+\.[A-Z|a-z]{2,}\b`, returning the
whole match. -/

/-- Word characters for the regex `\b` boundary (`\w`, ASCII part). -/
def isWordChar (c : Char) : Bool :=
  c.isAlpha || c.isDigit || c = '_'

/-- Character class `[A-Za-z0-9._%+-]` (local part). -/
def isLocalChar (c : Char) : Bool :=
  c.isAlpha || c.isDigit || c = '.' || c = '_' || c = '%' || c = '+' || c = '-'

/-- Character class `[A-Za-z0-9.-]` (domain). -/
def isDomainChar (c : Char) : Bool :=
  c.isAlpha || c.isDigit || c = '.' || c = '-'

/-- Character class `[A-Z|a-z]` (top-level label; the source pattern
literally includes `|` in the class). -/
def isTldChar (c : Char) : Bool :=
  c.isAlpha || c = '|'

/-- Greedy `X*`: consume as many matching characters as possible, then
backtrack one character at a time while the continuation fails. -/
def matchStar (p : Char → Bool) : List Char → (List Char → Option α) → Option α
  | [], k => k []
  | c :: rest, k =>
    if p c then
      match matchStar p rest k with
      | some x => some x
      | none => k (c :: rest)
    else k (c :: rest)

/-- Greedy `X+`: one required character, then greedy `X*`. -/
def matchPlus (p : Char → Bool) (s : List Char) (k : List Char → Option α) : Option α :=
  match s with
  | [] => none
  | c :: rest => if p c then matchStar p rest k else none

/-- Greedy `X*` that also tracks the last character consumed so far
(needed for the trailing `\b` after the top-level label). -/
def tldStar : Char → List Char → (Char → List Char → Option α) → Option α
  | last, [], k => k last []
  | last, c :: rest, k =>
    if isTldChar c then
      match tldStar c rest k with
      | some x => some x
      | none => k last (c :: rest)
    else k last (c :: rest)

/-- Attempt the email pattern at the current position; `prevWord` says
whether the character before this position is a word character (for the
leading `\b`).  On success return the number of characters matched. -/
def matchEmailAt (prevWord : Bool) (s : List Char) : Option Nat :=
  let curWord := match s with | [] => false | c :: _ => isWordChar c
  if prevWord = curWord then none
  else
    matchPlus isLocalChar s fun s1 =>
    match s1 with
    | '@' :: s2 =>
      matchPlus isDomainChar s2 fun s3 =>
      match s3 with
      | '.' :: s4 =>
        match s4 with
        | a :: b :: s5 =>
          if isTldChar a && isTldChar b then
            tldStar b s5 fun last s6 =>
              let nextWord := match s6 with | [] => false | c :: _ => isWordChar c
              if isWordChar last = nextWord then none
              else some (s.length - s6.length)
          else none
        | _ => none
      | _ => none
    | _ => none

/-- Leftmost search of the email pattern, carrying the previous
character for the `\b` check. -/
def searchEmail : Option Char → List Char → Option (List Char)
  | prev, s =>
    match matchEmailAt (match prev with | none => false | some c => isWordChar c) s with
    | some n => some (s.take n)
    | none =>
      match s with
      | [] => none
      | c :: rest => searchEmail (some c) rest

/-- Model of `VoiceService.extract_email`. -/
def extract_email (text : String) : Option String :=
  match searchEmail none text.toList with
  | some cs => some (⟨cs⟩ : String)
  | none => none

/-! Model of `VoiceService._fallback_intent_classification`
(`app/services/voice_service.py`). -/

/-- Classification result produced by the fallback classifier; the
financial branch always carries a priority hint, the restaurant branch
never does.  Confidence values 0.8 and 0.5 are exact rationals. -/
structure IntentResult where
  intent : String
  priority : Option String
  confidence : ℚ
deriving DecidableEq

/-- Fraud/security urgency keyword set of the fallback classifier. -/
def classifierUrgentKeywords : List String :=
  ["fraud", "stolen", "unauthorized", "locked"]

/-- Model of `VoiceService._fallback_intent_classification`. -/
def fallback_intent_classification (userSpeech : String) (context : String) : IntentResult :=
  let sl := pyLower userSpeech
  if context = "restaurant" then
    if (["reservation", "book", "table", "reserve"] : List String).any (fun w => strIn w sl) then
      ⟨"RESERVATION", none, 8/10⟩
    else if (["menu", "food", "dish", "price", "cost"] : List String).any (fun w => strIn w sl) then
      ⟨"MENU_INQUIRY", none, 8/10⟩
    else if (["hours", "open", "close", "location", "address"] : List String).any (fun w => strIn w sl) then
      ⟨"HOURS_LOCATION", none, 8/10⟩
    else
      ⟨"OTHER", none, 5/10⟩
  else if context = "financial" then
    if classifierUrgentKeywords.any (fun w => strIn w sl) then
      ⟨"ACCOUNT_INQUIRY", some "URGENT", 8/10⟩
    else if (["account", "balance", "statement"] : List String).any (fun w => strIn w sl) then
      ⟨"ACCOUNT_INQUIRY", some "MEDIUM", 8/10⟩
    else if (["loan", "credit", "mortgage"] : List String).any (fun w => strIn w sl) then
      ⟨"LOAN_APPLICATION", some "MEDIUM", 8/10⟩
    else
      ⟨"GENERAL", some "MEDIUM", 5/10⟩
  else
    ⟨"OTHER", none, 5/10⟩

/-! Model of the `json` stdlib as used by `FinancialService`: the only
values serialized are string-valued dicts (`update_session_data` stores
`json.dumps(data)`; `get_session_data` recovers it with `json.loads`,
returning the empty dict on any parse failure).  `jsonDumps` mirrors
`json.dumps` on such dicts (escaping quotes and backslashes);
`jsonLoads` parses exactly the JSON objects whose values are strings and
fails (`none`) on anything else. -/

/-- Opening brace character. -/
def lbraceChar : Char := Char.ofNat 123

/-- Closing brace character. -/
def rbraceChar : Char := Char.ofNat 125

/-- JSON string escaping for the characters `json.dumps` escapes in the
session payloads (quote and backslash; the stored utterances contain no
control characters). -/
def jsonEscChar (c : Char) : List Char :=
  if c = '"' then ['\\', '"'] else if c = '\\' then ['\\', '\\'] else [c]

/-- Serialize one `"key": "value"` pair. -/
def jsonPair (p : String × String) : String :=
  "\"" ++ (⟨p.1.toList.flatMap jsonEscChar⟩ : String) ++ "\": \""
    ++ (⟨p.2.toList.flatMap jsonEscChar⟩ : String) ++ "\""

/-- Comma-separated rendering of the pairs, matching `json.dumps`. -/
def jsonPairs : Dict → String
  | [] => ""
  | [p] => jsonPair p
  | p :: rest => jsonPair p ++ ", " ++ jsonPairs rest

/-- Model of `json.dumps` on a string-valued dict. -/
def jsonDumps (d : Dict) : String :=
  (String.singleton lbraceChar) ++ jsonPairs d ++ (String.singleton rbraceChar)

/-- JSON insignificant whitespace. -/
def skipWs (s : List Char) : List Char :=
  s.dropWhile (fun c => c = ' ' || c = '\t' || c = '\n' || c = '\r')

/-- Parse the body of a JSON string (after the opening quote), returning
its characters and the input after the closing quote. -/
def parseJString : List Char → Option (List Char × List Char)
  | [] => none
  | '\\' :: c :: rest =>
    if c = '"' || c = '\\' then
      match parseJString rest with
      | some (s, r) => some (c :: s, r)
      | none => none
    else none
  | '"' :: rest => some ([], rest)
  | c :: rest =>
    match parseJString rest with
    | some (s, r) => some (c :: s, r)
    | none => none

/-- Parse a non-empty sequence of `"key": "value"` pairs followed by the
closing brace, with `fuel` bounding the number of pairs. -/
def parsePairs : Nat → List Char → Option (Dict × List Char)
  | 0, _ => none
  | fuel + 1, s =>
    match skipWs s with
    | '"' :: rest =>
      match parseJString rest with
      | none => none
      | some (k, r1) =>
        match skipWs r1 with
        | ':' :: r2 =>
          match skipWs r2 with
          | '"' :: r3 =>
            match parseJString r3 with
            | none => none
            | some (v, r4) =>
              match skipWs r4 with
              | c :: r5 =>
                if c = ',' then
                  match parsePairs fuel r5 with
                  | some (d, r) => some (((⟨k⟩ : String), (⟨v⟩ : String)) :: d, r)
                  | none => none
                else if c = rbraceChar then
                  some ([((⟨k⟩ : String), (⟨v⟩ : String))], r5)
                else none
              | [] => none
          | _ => none
        | _ => none
    | _ => none

/-- Model of `json.loads` restricted to objects with string values;
`none` models a raised `JSONDecodeError` (or a non-object result, which
the session flow never stores). -/
def jsonLoads (str : String) : Option Dict :=
  match skipWs str.toList with
  | c :: rest =>
    if c = lbraceChar then
      match skipWs rest with
      | c2 :: r2 =>
        if c2 = rbraceChar then
          if (skipWs r2).isEmpty then some [] else none
        else
          match parsePairs (rest.length + 1) rest with
          | some (d, rem) => if (skipWs rem).isEmpty then some d else none
          | none => none
      | [] => none
    else none
  | [] => none

/-! Model of the persistent store (`app/models/database.py`) restricted
to the rows the financial flow touches.  Timestamps (`created_at`,
`updated_at`, `call_time`) and the `follow_up_completed`/`notes` columns
are not modelled: no embedded control flow reads them. -/

/-- Enum `InquiryPriority`. -/
inductive InquiryPriority where
  | LOW
  | MEDIUM
  | HIGH
  | URGENT
deriving DecidableEq

/-- Row of `financial_inquiries` (the Finalized Record). -/
structure FinancialInquiry where
  id : Nat
  customerName : String
  phone : String
  email : Option String
  reason : String
  priority : InquiryPriority
deriving DecidableEq

/-- Row of `call_sessions` (the Session store). -/
structure CallSession where
  callSid : String
  sessionData : Option String
  callType : String
deriving DecidableEq

/-- The database state threaded through a turn. -/
structure DB where
  sessions : List CallSession
  inquiries : List FinancialInquiry
deriving DecidableEq

/-- SQLAlchemy `query(CallSession).filter(call_sid == sid).first()`. -/
def findSession : List CallSession → String → Option CallSession
  | [], _ => none
  | s :: rest, sid => if s.callSid = sid then some s else findSession rest sid

/-! Model of `FinancialService` (`app/services/financial_service.py`),
deterministic fallback path (`openai_enabled = False`). -/

/-- Urgency keyword set of `FinancialService._determine_priority`. -/
def priorityUrgentKeywords : List String :=
  ["fraud", "stolen", "unauthorized", "locked", "emergency", "hack"]

/-- High-priority keyword set of `FinancialService._determine_priority`. -/
def priorityHighKeywords : List String :=
  ["payment", "due", "deadline", "billing", "dispute", "access", "urgent"]

/-- Model of `FinancialService._determine_priority`. -/
def determine_priority (text : String) : String :=
  let textLower := pyLower text
  if priorityUrgentKeywords.any (fun k => strIn k textLower) then "URGENT"
  else if priorityHighKeywords.any (fun k => strIn k textLower) then "HIGH"
  else "MEDIUM"

/-- Introduction cues for name extraction. -/
def nameCues : List String :=
  ["my name is", "i am", "this is"]

/-- Index search of the first word whose lower-casing is `is` or `am`;
returns the Python `name_start = i + 1` (the loop breaks at the first
hit, and `-1`, modelled as `none`, when no word matches). -/
def findNameStart : List String → Nat → Option Nat
  | [], _ => none
  | w :: rest, i =>
    if pyLower w = "is" || pyLower w = "am" then some (i + 1)
    else findNameStart rest (i + 1)

/-- Name recognizer of `FinancialService._extract_with_fallback`:
attempted only when `name` is not already truthy and an introduction cue
occurs in the lowered utterance; takes the one or two words after the
first `is`/`am` word and title-cases them. -/
def extractName (userInput : String) (existingData : Dict) : Option String :=
  if getTruthy existingData "name" then none
  else if nameCues.any (fun p => strIn p (pyLower userInput)) then
    let words := pySplit userInput
    match findNameStart words 0 with
    | some ns =>
      if ns < words.length then
        some (pyTitle (joinWords ((words.drop ns).take 2)))
      else none
    | none => none
  else none

/-- Model of `FinancialService._extract_with_fallback`. -/
def extract_with_fallback (userInput : String) (existingData : Dict) : Dict :=
  let d0 := existingData
  let d1 := match extractName userInput existingData with
            | some n => dictSet d0 "name" n
            | none => d0
  let d2 := match extract_phone_number userInput with
            | some p => dictSet d1 "phone" p
            | none => d1
  let d3 := match extract_email userInput with
            | some e => dictSet d2 "email" e
            | none => d2
  let d4 := if getTruthy existingData "reason" then d3
            else dictSet d3 "reason" userInput
  dictSet d4 "priority" (determine_priority userInput)

/-- Model of `FinancialService.get_next_question`. -/
def get_next_question (missingField : String) : String :=
  if missingField = "name" then
    "I\x27ll be happy to help you. First, could you tell me your full name?"
  else if missingField = "phone" then
    "Thank you! And what\x27s the best phone number for our team to reach you at?"
  else if missingField = "email" then
    "Would you also like to provide an email address for follow-up?"
  else if missingField = "reason" then
    "Perfect! Now, could you briefly tell me what you\x27re calling about today?"
  else
    "I need a bit more information. Could you repeat that?"

/-- The `priority_map.get(..., InquiryPriority.MEDIUM)` lookup of
`FinancialService.create_inquiry`. -/
def priorityMapGet (s : String) : InquiryPriority :=
  if s = "URGENT" then .URGENT
  else if s = "HIGH" then .HIGH
  else if s = "MEDIUM" then .MEDIUM
  else if s = "LOW" then .LOW
  else .MEDIUM

/-- Model of `FinancialService.create_inquiry`: build the inquiry row
and append it (`db.add` + `commit`).  The generated primary key is the
next row number.  `info['name']`, `info['phone']` and `info['reason']`
are modelled total with `""` for a missing key; the only caller reaches
this point with all three truthy. -/
def create_inquiry (db : DB) (info : Dict) : FinancialInquiry × DB :=
  let priority := priorityMapGet ((dictGet info "priority").getD "MEDIUM")
  let inquiry : FinancialInquiry :=
    { id := db.inquiries.length + 1
      customerName := (dictGet info "name").getD ""
      phone := (dictGet info "phone").getD ""
      email := dictGet info "email"
      reason := (dictGet info "reason").getD ""
      priority := priority }
  (inquiry, { db with inquiries := db.inquiries ++ [inquiry] })

/-- Model of `FinancialService.get_session_data`: missing row, null or
empty `session_data`, and any `json.loads` failure all degrade to the
empty dict. -/
def get_session_data (db : DB) (callSid : String) : Dict :=
  match findSession db.sessions callSid with
  | none => []
  | some s =>
    match s.sessionData with
    | none => []
    | some str =>
      if str = "" then []
      else
        match jsonLoads str with
        | some d => d
        | none => []

/-- Replace the payload of the session row with this `call_sid`, or
append a fresh `financial` row when none exists. -/
def setSessionData : List CallSession → String → String → List CallSession
  | [], sid, payload => [{ callSid := sid, sessionData := some payload, callType := "financial" }]
  | s :: rest, sid, payload =>
    if s.callSid = sid then { s with sessionData := some payload } :: rest
    else s :: setSessionData rest sid payload

/-- Model of `FinancialService.update_session_data`. -/
def update_session_data (db : DB) (callSid : String) (data : Dict) : DB :=
  { db with sessions := setSessionData db.sessions callSid (jsonDumps data) }

/-- The ordered required-field checklist of the financial inquiry flow. -/
def requiredFields : List String :=
  ["name", "phone", "reason"]

/-- The `missing_fields` list comprehension of
`FinancialService.handle_after_hours_inquiry`. -/
def missingFields (customerInfo : Dict) : List String :=
  requiredFields.filter (fun f => !getTruthy customerInfo f)

/-- Terminal confirmation reply composed on completion. -/
def confirmationReply (customerName : String) : String :=
  "Thank you, " ++ customerName ++
    "! I\x27ve recorded your information and our team will contact you within 24 hours. Have a great day!"

/-- Model of `FinancialService.handle_after_hours_inquiry` on the
deterministic fallback path: load the session, extract, persist the
merged fields, then either ask for the first missing checklist field
(returning `should_end = false`) or create the inquiry and confirm
(returning `should_end = true`).  The staff notification is
fire-and-forget and touches no modelled state; the `except` arm of the
source is unreachable in this pure model. -/
def handle_after_hours_inquiry (db : DB) (userInput : String) (callSid : String) :
    (String × Bool) × DB :=
  let sessionData := get_session_data db callSid
  let customerInfo := extract_with_fallback userInput sessionData
  let db1 := update_session_data db callSid customerInfo
  match missingFields customerInfo with
  | f :: _ => ((get_next_question f, false), db1)
  | [] =>
    let (inquiry, db2) := create_inquiry db1 customerInfo
    ((confirmationReply inquiry.customerName, true), db2)

/-! Model of the `/voice/financial/process` endpoint
(`app/main.py`, `process_financial_request`).  The TwiML response is
abstracted to the text said and whether a `gather` keeps listening. -/

/-- Outcome of one turn at the transport boundary. -/
structure TwimlReply where
  sayText : String
  gather : Bool
deriving DecidableEq

/-- Python truthiness of an optional form field (`None` and `""` are
falsy). -/
def pyTruthy : Option String → Bool
  | none => false
  | some s => !(s = "")

/-- Re-prompt said when the utterance or the call id is missing. -/
def didNotCatchReply : String :=
  "I\x27m sorry, I didn\x27t catch that. Could you please repeat that?"

/-- Model of `process_financial_request`: on missing input, re-prompt
and keep gathering without touching the store; otherwise run the
inquiry handler and keep gathering exactly when the turn is not
complete. -/
def process_financial_request (db : DB) (speechResult : Option String)
    (callSid : Option String) : TwimlReply × DB :=
  if !pyTruthy speechResult || !pyTruthy callSid then
    ({ sayText := didNotCatchReply, gather := true }, db)
  else
    let r := handle_after_hours_inquiry db (speechResult.getD "") (callSid.getD "")
    ({ sayText := r.1.1, gather := !r.1.2 }, r.2)

/-! General lemmas about the dict model. -/

theorem dictGet_set_same (d : Dict) (k v : String) :
    dictGet (dictSet d k v) k = some v := by
  induction d with
  | nil => simp [dictSet, dictGet]
  | cons p rest ih =>
    obtain ⟨k', v'⟩ := p
    by_cases h : k' = k <;> simp [dictSet, dictGet, h, ih]

theorem dictGet_set_other (d : Dict) (k v k' : String) (h : k' ≠ k) :
    dictGet (dictSet d k v) k' = dictGet d k' := by
  induction d with
  | nil => simp [dictSet, dictGet, Ne.symm h]
  | cons p rest ih =>
    obtain ⟨k₀, v₀⟩ := p
    by_cases h0 : k₀ = k
    · subst h0
      simp [dictSet, dictGet, Ne.symm h]
    · by_cases h1 : k₀ = k'
      · subst h1
        simp [dictSet, dictGet, h0]
      · simp [dictSet, dictGet, h0, h1, ih]

theorem getTruthy_set_other (d : Dict) (k v k' : String) (h : k' ≠ k) :
    getTruthy (dictSet d k v) k' = getTruthy d k' := by
  simp [getTruthy, dictGet_set_other d k v k' h]

theorem get_name_set_phone (d : Dict) (v : String) :
    dictGet (dictSet d "phone" v) "name" = dictGet d "name" :=
  dictGet_set_other d _ v _ (by decide)

theorem get_name_set_email (d : Dict) (v : String) :
    dictGet (dictSet d "email" v) "name" = dictGet d "name" :=
  dictGet_set_other d _ v _ (by decide)

theorem get_name_set_reason (d : Dict) (v : String) :
    dictGet (dictSet d "reason" v) "name" = dictGet d "name" :=
  dictGet_set_other d _ v _ (by decide)

theorem get_name_set_priority (d : Dict) (v : String) :
    dictGet (dictSet d "priority" v) "name" = dictGet d "name" :=
  dictGet_set_other d _ v _ (by decide)

theorem get_reason_set_name (d : Dict) (v : String) :
    dictGet (dictSet d "name" v) "reason" = dictGet d "reason" :=
  dictGet_set_other d _ v _ (by decide)

theorem get_reason_set_phone (d : Dict) (v : String) :
    dictGet (dictSet d "phone" v) "reason" = dictGet d "reason" :=
  dictGet_set_other d _ v _ (by decide)

theorem get_reason_set_email (d : Dict) (v : String) :
    dictGet (dictSet d "email" v) "reason" = dictGet d "reason" :=
  dictGet_set_other d _ v _ (by decide)

theorem get_reason_set_priority (d : Dict) (v : String) :
    dictGet (dictSet d "priority" v) "reason" = dictGet d "reason" :=
  dictGet_set_other d _ v _ (by decide)

theorem get_phone_set_name (d : Dict) (v : String) :
    dictGet (dictSet d "name" v) "phone" = dictGet d "phone" :=
  dictGet_set_other d _ v _ (by decide)

theorem get_phone_set_email (d : Dict) (v : String) :
    dictGet (dictSet d "email" v) "phone" = dictGet d "phone" :=
  dictGet_set_other d _ v _ (by decide)

theorem get_phone_set_reason (d : Dict) (v : String) :
    dictGet (dictSet d "reason" v) "phone" = dictGet d "phone" :=
  dictGet_set_other d _ v _ (by decide)

theorem get_phone_set_priority (d : Dict) (v : String) :
    dictGet (dictSet d "priority" v) "phone" = dictGet d "phone" :=
  dictGet_set_other d _ v _ (by decide)

/-! Facts about the extractor relevant to the overwrite claims. -/

theorem extractName_of_truthy (input : String) (d : Dict)
    (h : getTruthy d "name" = true) : extractName input d = none := by
  simp [extractName, h]

theorem extract_keeps_name (input : String) (d : Dict)
    (h : getTruthy d "name" = true) :
    dictGet (extract_with_fallback input d) "name" = dictGet d "name" := by
  simp only [extract_with_fallback, extractName_of_truthy input d h]
  rw [get_name_set_priority]
  cases h4 : getTruthy d "reason" <;>
    cases h2 : extract_phone_number input <;>
    cases h3 : extract_email input <;>
    simp only [Bool.false_eq_true, if_neg, if_pos, get_name_set_reason,
      get_name_set_phone, get_name_set_email, ite_false, ite_true]

theorem extract_keeps_reason (input : String) (d : Dict)
    (h : getTruthy d "reason" = true) :
    dictGet (extract_with_fallback input d) "reason" = dictGet d "reason" := by
  simp only [extract_with_fallback, h, ite_true]
  rw [get_reason_set_priority]
  cases hn : extractName input d <;>
    cases h2 : extract_phone_number input <;>
    cases h3 : extract_email input <;>
    simp only [get_reason_set_name, get_reason_set_phone, get_reason_set_email]

theorem extract_sets_reason (input : String) (d : Dict)
    (h : getTruthy d "reason" = false) :
    dictGet (extract_with_fallback input d) "reason" = some input := by
  simp only [extract_with_fallback, h, Bool.false_eq_true, ite_false]
  rw [get_reason_set_priority, dictGet_set_same]

theorem extract_sets_priority (input : String) (d : Dict) :
    dictGet (extract_with_fallback input d) "priority" =
      some (determine_priority input) := by
  simp only [extract_with_fallback]
  exact dictGet_set_same _ _ _

theorem extract_keeps_phone (input : String) (d : Dict)
    (h : extract_phone_number input = none) :
    dictGet (extract_with_fallback input d) "phone" = dictGet d "phone" := by
  simp only [extract_with_fallback, h]
  rw [get_phone_set_priority]
  cases hn : extractName input d <;>
    cases h3 : extract_email input <;>
    cases h4 : getTruthy d "reason" <;>
    simp only [Bool.false_eq_true, ite_false, ite_true, get_phone_set_name,
      get_phone_set_email, get_phone_set_reason]

/-! Claim theorems. -/

/-- C2 counterexample: extraction does overwrite a non-empty `phone`
field.  With `phone` already captured as `+15551234567`, the utterance
`555-987-6543` replaces it with `+15559876543`, so the extractor is not
first-value-wins for `phone`. -/
theorem C2_counterexample :
    getTruthy [("phone", "+15551234567")] "phone" = true ∧
    dictGet (extract_with_fallback "555-987-6543" [("phone", "+15551234567")]) "phone"
      = some "+15559876543" ∧
    dictGet (extract_with_fallback "555-987-6543" [("phone", "+15551234567")]) "phone"
      ≠ dictGet [("phone", "+15551234567")] "phone" := by
  refine ⟨by decide, by decide, ?_⟩
  decide

/-- C2 (amended): the extractor never overwrites a field that is already
non-empty for `name` and `reason` only; `phone` and `email` are
re-extracted and overwritten whenever a later utterance matches their
patterns. -/
theorem C2_amended : ∀ (input : String) (known : Dict),
    (getTruthy known "name" = true →
      dictGet (extract_with_fallback input known) "name" = dictGet known "name") ∧
    (getTruthy known "reason" = true →
      dictGet (extract_with_fallback input known) "reason" = dictGet known "reason") :=
  fun input known =>
    ⟨extract_keeps_name input known, extract_keeps_reason input known⟩

/-- C2 witness: a captured name survives a later utterance that offers a
different name and a phone number. -/
theorem C2_witness :
    getTruthy [("name", "Bob"), ("reason", "billing issue")] "name" = true ∧
    dictGet (extract_with_fallback "my name is Alice Jones 555-123-4567"
        [("name", "Bob"), ("reason", "billing issue")]) "name"
      = dictGet [("name", "Bob"), ("reason", "billing issue")] "name" :=
  ⟨by decide,
   (C2_amended "my name is Alice Jones 555-123-4567"
      [("name", "Bob"), ("reason", "billing issue")]).1 (by decide)⟩

/-- C3 counterexample: the session priority is not monotone.  A first
turn reporting a stolen card stores priority URGENT; a later harmless
turn of the same call downgrades the stored priority to MEDIUM. -/
theorem C3_counterexample :
    dictGet (get_session_data
        (handle_after_hours_inquiry ⟨[], []⟩ "my card was stolen" "CA2").2 "CA2")
        "priority" = some "URGENT" ∧
    dictGet (get_session_data
        (handle_after_hours_inquiry
          (handle_after_hours_inquiry ⟨[], []⟩ "my card was stolen" "CA2").2
          "hello there" "CA2").2 "CA2")
        "priority" = some "MEDIUM" := by
  constructor
  · decide
  · decide

/-- C3 (amended): the extractor recomputes `priority` on every turn from
the current utterance alone (URGENT/HIGH/MEDIUM keyword rule),
unconditionally overwriting the stored value, so the priority can
de-escalate across turns. -/
theorem C3_amended : ∀ (input : String) (known : Dict),
    dictGet (extract_with_fallback input known) "priority"
      = some (determine_priority input) :=
  fun input known => extract_sets_priority input known

/-- C8 counterexample: an utterance consumed by the name recognizer
still becomes the reason.  `my name is John Smith` sets
`name = John Smith` and is simultaneously stored verbatim as `reason`. -/
theorem C8_counterexample :
    dictGet (extract_with_fallback "my name is John Smith" []) "name"
      = some "John Smith" ∧
    dictGet (extract_with_fallback "my name is John Smith" []) "reason"
      = some "my name is John Smith" := by
  constructor
  · decide
  · decide

/-- C8 (amended): whenever `reason` is not yet truthy in the known field
set, the entire utterance is stored verbatim as the reason — regardless
of whether the name, phone or email recognizers also consumed it. -/
theorem C8_amended : ∀ (input : String) (known : Dict),
    getTruthy known "reason" = false →
    dictGet (extract_with_fallback input known) "reason" = some input :=
  fun input known h => extract_sets_reason input known h

/-- C8 witness: the amended rule at the counterexample utterance. -/
theorem C8_witness :
    getTruthy ([] : Dict) "reason" = false ∧
    dictGet (extract_with_fallback "my name is John Smith" []) "reason"
      = some "my name is John Smith" :=
  ⟨by decide, C8_amended "my name is John Smith" [] (by decide)⟩

/-- C4: any utterance containing a fraud/security urgency keyword is
classified by the deterministic financial fallback as intent
ACCOUNT_INQUIRY with priority URGENT, no matter what other topic
keywords appear or in which order — the urgency branch is checked
first. -/
theorem C4_urgency_precedence : ∀ speech : String,
    classifierUrgentKeywords.any (fun w => strIn w (pyLower speech)) = true →
    fallback_intent_classification speech "financial"
      = ⟨"ACCOUNT_INQUIRY", some "URGENT", 8/10⟩ := by
  intro speech h
  simp [fallback_intent_classification, h]

/-- C4 witness: an utterance with the urgency keyword `fraud` after
account/balance and loan topic keywords still classifies URGENT. -/
theorem C4_witness :
    ((["account", "balance", "statement"] : List String).any
        (fun w => strIn w (pyLower "my account balance and my loan show fraud")) = true) ∧
    ((["loan", "credit", "mortgage"] : List String).any
        (fun w => strIn w (pyLower "my account balance and my loan show fraud")) = true) ∧
    fallback_intent_classification "my account balance and my loan show fraud" "financial"
      = ⟨"ACCOUNT_INQUIRY", some "URGENT", 8/10⟩ :=
  ⟨by decide, by decide,
   C4_urgency_precedence "my account balance and my loan show fraud" (by decide)⟩

/-- C7: when the utterance is empty or absent, or the call id is absent
or empty, the financial endpoint replies with the re-prompt, keeps
gathering, and returns the store unchanged — no session is touched. -/
theorem C7_input_missing : ∀ (db : DB) (speechResult callSid : Option String),
    pyTruthy speechResult = false ∨ pyTruthy callSid = false →
    process_financial_request db speechResult callSid
      = ({ sayText := didNotCatchReply, gather := true }, db) := by
  intro db sr cs h
  have hb : (!pyTruthy sr || !pyTruthy cs) = true := by
    rcases h with h | h <;> simp [h]
  simp [process_financial_request, hb]

/-- C7 witness: a missing utterance with a present call id leaves a
non-empty store untouched. -/
theorem C7_witness :
    pyTruthy (none : Option String) = false ∧
    process_financial_request
        ⟨[{ callSid := "CA1", sessionData := some "x", callType := "financial" }], []⟩
        none (some "CA1")
      = ({ sayText := didNotCatchReply, gather := true },
         ⟨[{ callSid := "CA1", sessionData := some "x", callType := "financial" }], []⟩) :=
  ⟨by decide,
   C7_input_missing
     ⟨[{ callSid := "CA1", sessionData := some "x", callType := "financial" }], []⟩
     none (some "CA1") (Or.inl (by decide))⟩

/-- C9: the Record Finalizer maps the accumulated `priority` field
through the fixed enum, and the created record's priority is MEDIUM
whenever the field is absent or its value is not one of the four
recognized strings. -/
theorem C9_priority_mapping : ∀ (db : DB) (info : Dict),
    ((create_inquiry db info).1.priority
      = priorityMapGet ((dictGet info "priority").getD "MEDIUM")) ∧
    (dictGet info "priority" = none →
      (create_inquiry db info).1.priority = InquiryPriority.MEDIUM) ∧
    (∀ s, dictGet info "priority" = some s →
      s ∉ (["LOW", "MEDIUM", "HIGH", "URGENT"] : List String) →
      (create_inquiry db info).1.priority = InquiryPriority.MEDIUM) ∧
    (dictGet info "priority" = some "LOW" →
      (create_inquiry db info).1.priority = InquiryPriority.LOW) ∧
    (dictGet info "priority" = some "MEDIUM" →
      (create_inquiry db info).1.priority = InquiryPriority.MEDIUM) ∧
    (dictGet info "priority" = some "HIGH" →
      (create_inquiry db info).1.priority = InquiryPriority.HIGH) ∧
    (dictGet info "priority" = some "URGENT" →
      (create_inquiry db info).1.priority = InquiryPriority.URGENT) := by
  intro db info
  refine ⟨rfl, ?_, ?_, ?_, ?_, ?_, ?_⟩
  · intro h
    show priorityMapGet ((dictGet info "priority").getD "MEDIUM") = _
    rw [h]
    decide
  · intro s h hs
    show priorityMapGet ((dictGet info "priority").getD "MEDIUM") = _
    rw [h]
    have hU : s ≠ "URGENT" := by rintro rfl; exact hs (by decide)
    have hH : s ≠ "HIGH" := by rintro rfl; exact hs (by decide)
    have hM : s ≠ "MEDIUM" := by rintro rfl; exact hs (by decide)
    have hL : s ≠ "LOW" := by rintro rfl; exact hs (by decide)
    simp [priorityMapGet, hU, hH, hM, hL]
  · intro h
    show priorityMapGet ((dictGet info "priority").getD "MEDIUM") = _
    rw [h]
    decide
  · intro h
    show priorityMapGet ((dictGet info "priority").getD "MEDIUM") = _
    rw [h]
    decide
  · intro h
    show priorityMapGet ((dictGet info "priority").getD "MEDIUM") = _
    rw [h]
    decide
  · intro h
    show priorityMapGet ((dictGet info "priority").getD "MEDIUM") = _
    rw [h]
    decide

/-- C9 witness: an unrecognized priority string defaults to MEDIUM. -/
theorem C9_witness :
    dictGet [("name", "A"), ("priority", "banana")] "priority" = some "banana" ∧
    (create_inquiry ⟨[], []⟩ [("name", "A"), ("priority", "banana")]).1.priority
      = InquiryPriority.MEDIUM :=
  ⟨by decide,
   (C9_priority_mapping ⟨[], []⟩ [("name", "A"), ("priority", "banana")]).2.2.1
     "banana" (by decide) (by decide)⟩

/-- C10: loading session data is total and degrades to the empty field
mapping when no row exists for the call, when the stored payload is
null or empty, and when the stored payload does not parse as a JSON
object of strings. -/
theorem C10_session_load_degrades : ∀ (db : DB) (callSid : String),
    (findSession db.sessions callSid = none → get_session_data db callSid = []) ∧
    (∀ s, findSession db.sessions callSid = some s → s.sessionData = none →
      get_session_data db callSid = []) ∧
    (∀ s str, findSession db.sessions callSid = some s → s.sessionData = some str →
      jsonLoads str = none → get_session_data db callSid = []) := by
  intro db sid
  refine ⟨?_, ?_, ?_⟩
  · intro h
    simp [get_session_data, h]
  · intro s h1 h2
    simp [get_session_data, h1, h2]
  · intro s str h1 h2 h3
    by_cases hstr : str = "" <;> simp [get_session_data, h1, h2, h3, hstr]

/-- C10 witness: a stored payload that is not valid JSON loads as the
empty field mapping. -/
theorem C10_witness :
    jsonLoads "not json" = none ∧
    get_session_data
        ⟨[{ callSid := "CAx", sessionData := some "not json", callType := "financial" }], []⟩
        "CAx" = [] :=
  ⟨by decide,
   (C10_session_load_degrades
      ⟨[{ callSid := "CAx", sessionData := some "not json", callType := "financial" }], []⟩
      "CAx").2.2
     { callSid := "CAx", sessionData := some "not json", callType := "financial" }
     "not json" (by decide) (by decide) (by decide)⟩

set_option maxRecDepth 100000 in
/-- C1 counterexample: finalization is not idempotent.  Replaying the
turn that completes a call (same utterance, same `call_id`) creates a
second inquiry record: no existing-record check is performed. -/
theorem C1_counterexample :
    ((handle_after_hours_inquiry ⟨[], []⟩
        "my name is John Smith please call 555-123-4567 my card was stolen"
        "CA1").2).inquiries.length = 1 ∧
    ((handle_after_hours_inquiry
        (handle_after_hours_inquiry ⟨[], []⟩
          "my name is John Smith please call 555-123-4567 my card was stolen"
          "CA1").2
        "my name is John Smith please call 555-123-4567 my card was stolen"
        "CA1").2).inquiries.length = 2 := by
  constructor
  · decide
  · decide

/-- C1 (amended): every processing of a turn whose post-extraction field
set satisfies the checklist appends exactly one new inquiry record —
repeating the completing turn n times yields n records, since the
Dialogue Manager performs no existing-record check. -/
theorem C1_amended : ∀ (db : DB) (input callSid : String),
    missingFields (extract_with_fallback input (get_session_data db callSid)) = [] →
    ((handle_after_hours_inquiry db input callSid).2).inquiries.length
      = db.inquiries.length + 1 := by
  intro db input sid h
  simp only [handle_after_hours_inquiry, h]
  simp [create_inquiry, update_session_data]

set_option maxRecDepth 100000 in
/-- C1 witness: the completing turn of the counterexample call appends
one record to an empty store. -/
theorem C1_witness :
    missingFields (extract_with_fallback
        "my name is John Smith please call 555-123-4567 my card was stolen"
        (get_session_data ⟨[], []⟩ "CA1")) = [] ∧
    ((handle_after_hours_inquiry ⟨[], []⟩
        "my name is John Smith please call 555-123-4567 my card was stolen"
        "CA1").2).inquiries.length = (⟨[], []⟩ : DB).inquiries.length + 1 :=
  ⟨by decide,
   C1_amended ⟨[], []⟩
     "my name is John Smith please call 555-123-4567 my card was stolen"
     "CA1" (by decide)⟩

theorem handle_asks (db : DB) (input callSid f : String) (rest : List String)
    (h : missingFields (extract_with_fallback input (get_session_data db callSid))
      = f :: rest) :
    handle_after_hours_inquiry db input callSid
      = ((get_next_question f, false),
         update_session_data db callSid
           (extract_with_fallback input (get_session_data db callSid))) := by
  simp only [handle_after_hours_inquiry, h]

/-- C5: whenever the post-extraction field set of a financial turn
leaves at least one checklist field non-truthy, the handler replies
with the canned question for exactly the earliest-listed missing field
of the ordered checklist, keeps collecting (`should_end = false`), and
creates no record — only the session is persisted. -/
theorem C5_earliest_missing_field : ∀ (db : DB) (input callSid f : String),
    (missingFields (extract_with_fallback input (get_session_data db callSid))).head?
      = some f →
    (∃ pre post, requiredFields = pre ++ f :: post ∧
      (∀ g ∈ pre,
        getTruthy (extract_with_fallback input (get_session_data db callSid)) g = true) ∧
      getTruthy (extract_with_fallback input (get_session_data db callSid)) f = false) ∧
    handle_after_hours_inquiry db input callSid
      = ((get_next_question f, false),
         update_session_data db callSid
           (extract_with_fallback input (get_session_data db callSid))) := by
  intro db input sid f h
  cases hn : getTruthy (extract_with_fallback input (get_session_data db sid)) "name" <;>
    cases hp : getTruthy (extract_with_fallback input (get_session_data db sid)) "phone" <;>
    cases hr : getTruthy (extract_with_fallback input (get_session_data db sid)) "reason"
  · have hm : missingFields (extract_with_fallback input (get_session_data db sid))
        = ["name", "phone", "reason"] := by
      simp [missingFields, requiredFields, hn, hp, hr]
    rw [hm] at h
    simp only [List.head?] at h
    obtain rfl : "name" = f := by injection h
    exact ⟨⟨[], ["phone", "reason"], rfl, by simp, hn⟩, handle_asks db input sid _ _ hm⟩
  · have hm : missingFields (extract_with_fallback input (get_session_data db sid))
        = ["name", "phone"] := by
      simp [missingFields, requiredFields, hn, hp, hr]
    rw [hm] at h
    simp only [List.head?] at h
    obtain rfl : "name" = f := by injection h
    exact ⟨⟨[], ["phone", "reason"], rfl, by simp, hn⟩, handle_asks db input sid _ _ hm⟩
  · have hm : missingFields (extract_with_fallback input (get_session_data db sid))
        = ["name", "reason"] := by
      simp [missingFields, requiredFields, hn, hp, hr]
    rw [hm] at h
    simp only [List.head?] at h
    obtain rfl : "name" = f := by injection h
    exact ⟨⟨[], ["phone", "reason"], rfl, by simp, hn⟩, handle_asks db input sid _ _ hm⟩
  · have hm : missingFields (extract_with_fallback input (get_session_data db sid))
        = ["name"] := by
      simp [missingFields, requiredFields, hn, hp, hr]
    rw [hm] at h
    simp only [List.head?] at h
    obtain rfl : "name" = f := by injection h
    exact ⟨⟨[], ["phone", "reason"], rfl, by simp, hn⟩, handle_asks db input sid _ _ hm⟩
  · have hm : missingFields (extract_with_fallback input (get_session_data db sid))
        = ["phone", "reason"] := by
      simp [missingFields, requiredFields, hn, hp, hr]
    rw [hm] at h
    simp only [List.head?] at h
    obtain rfl : "phone" = f := by injection h
    refine ⟨⟨["name"], ["reason"], rfl, ?_, hp⟩, handle_asks db input sid _ _ hm⟩
    intro g hg
    simp only [List.mem_singleton] at hg
    rw [hg]
    exact hn
  · have hm : missingFields (extract_with_fallback input (get_session_data db sid))
        = ["phone"] := by
      simp [missingFields, requiredFields, hn, hp, hr]
    rw [hm] at h
    simp only [List.head?] at h
    obtain rfl : "phone" = f := by injection h
    refine ⟨⟨["name"], ["reason"], rfl, ?_, hp⟩, handle_asks db input sid _ _ hm⟩
    intro g hg
    simp only [List.mem_singleton] at hg
    rw [hg]
    exact hn
  · have hm : missingFields (extract_with_fallback input (get_session_data db sid))
        = ["reason"] := by
      simp [missingFields, requiredFields, hn, hp, hr]
    rw [hm] at h
    simp only [List.head?] at h
    obtain rfl : "reason" = f := by injection h
    refine ⟨⟨["name", "phone"], [], rfl, ?_, hr⟩, handle_asks db input sid _ _ hm⟩
    intro g hg
    simp only [List.mem_cons, List.not_mem_nil, or_false] at hg
    rcases hg with hg | hg
    · rw [hg]; exact hn
    · rw [hg]; exact hp
  · have hm : missingFields (extract_with_fallback input (get_session_data db sid))
        = [] := by
      simp [missingFields, requiredFields, hn, hp, hr]
    rw [hm] at h
    simp at h

/-- C5 witness: on a fresh call whose first utterance fills only the
reason, the handler asks for the name — the earliest missing field. -/
theorem C5_witness :
    (∃ pre post, requiredFields = pre ++ "name" :: post ∧
      (∀ g ∈ pre,
        getTruthy (extract_with_fallback "hello" (get_session_data ⟨[], []⟩ "CA9")) g
          = true) ∧
      getTruthy (extract_with_fallback "hello" (get_session_data ⟨[], []⟩ "CA9")) "name"
        = false) ∧
    handle_after_hours_inquiry ⟨[], []⟩ "hello" "CA9"
      = ((get_next_question "name", false),
         update_session_data ⟨[], []⟩ "CA9"
           (extract_with_fallback "hello" (get_session_data ⟨[], []⟩ "CA9"))) :=
  C5_earliest_missing_field ⟨[], []⟩ "hello" "CA9" "name" (by decide)

/-! Shape of any successful phone extraction. -/

theorem takeDigits_spec : ∀ (n : Nat) (s ds r : List Char),
    takeDigits n s = some (ds, r) →
    ds.length = n ∧ ds.all Char.isDigit = true := by
  intro n
  induction n with
  | zero =>
    intro s ds r h
    simp only [takeDigits, Option.some.injEq, Prod.mk.injEq] at h
    obtain ⟨rfl, rfl⟩ := h
    simp
  | succ m ih =>
    intro s ds r h
    cases s with
    | nil => simp [takeDigits] at h
    | cons c rest =>
      simp only [takeDigits] at h
      by_cases hc : c.isDigit
      · rw [if_pos hc] at h
        cases htd : takeDigits m rest with
        | none => rw [htd] at h; cases h
        | some pr =>
          obtain ⟨ds', r'⟩ := pr
          rw [htd] at h
          simp only [Option.some.injEq, Prod.mk.injEq] at h
          obtain ⟨h1, h2⟩ := h
          subst h1
          obtain ⟨hlen, hall⟩ := ih rest ds' r' htd
          constructor
          · simp [hlen]
          · simp [List.all_cons, hc, hall]
      · rw [if_neg hc] at h
        cases h

theorem optChar_some (p : Char → Bool) (s : List Char) (k : List Char → Option α)
    (x : α) (h : optChar p s k = some x) : ∃ s', k s' = some x := by
  cases s with
  | nil =>
    exact ⟨[], h⟩
  | cons c rest =>
    simp only [optChar] at h
    by_cases hc : p c
    · rw [if_pos hc] at h
      cases hk : k rest with
      | some y => rw [hk] at h; exact ⟨rest, hk.trans h⟩
      | none => rw [hk] at h; exact ⟨c :: rest, h⟩
    · rw [if_neg hc] at h
      exact ⟨c :: rest, h⟩

theorem matchPhoneAt_spec (s : List Char) (ds : List Char)
    (h : matchPhoneAt s = some ds) :
    ds.length = 10 ∧ ds.all Char.isDigit = true := by
  unfold matchPhoneAt at h
  obtain ⟨s1, h⟩ := optChar_some _ _ _ _ h
  obtain ⟨s2, h⟩ := optChar_some _ _ _ _ h
  obtain ⟨s3, h⟩ := optChar_some _ _ _ _ h
  obtain ⟨s4, h⟩ := optChar_some _ _ _ _ h
  try dsimp only at h
  cases h2 : takeDigits 3 s4 with
  | none => rw [h2] at h; cases h
  | some pr2 =>
    obtain ⟨g2, s5⟩ := pr2
    rw [h2] at h
    obtain ⟨s6, h⟩ := optChar_some _ _ _ _ h
    obtain ⟨s7, h⟩ := optChar_some _ _ _ _ h
    try dsimp only at h
    cases h3 : takeDigits 3 s7 with
    | none => rw [h3] at h; cases h
    | some pr3 =>
      obtain ⟨g3, s8⟩ := pr3
      rw [h3] at h
      obtain ⟨s9, h⟩ := optChar_some _ _ _ _ h
      try dsimp only at h
      cases h4 : takeDigits 4 s9 with
      | none => rw [h4] at h; cases h
      | some pr4 =>
        obtain ⟨g4, s10⟩ := pr4
        rw [h4] at h
        simp only [Option.some.injEq] at h
        subst h
        obtain ⟨l2, a2⟩ := takeDigits_spec 3 s4 g2 s5 h2
        obtain ⟨l3, a3⟩ := takeDigits_spec 3 s7 g3 s8 h3
        obtain ⟨l4, a4⟩ := takeDigits_spec 4 s9 g4 s10 h4
        constructor
        · simp [l2, l3, l4]
        · simp only [List.all_append, a2, a3, a4, Bool.and_self]

theorem searchPhone_spec : ∀ (s ds : List Char), searchPhone s = some ds →
    ds.length = 10 ∧ ds.all Char.isDigit = true := by
  intro s
  induction s with
  | nil =>
    intro ds h
    exact matchPhoneAt_spec [] ds h
  | cons c rest ih =>
    intro ds h
    simp only [searchPhone] at h
    cases hm : matchPhoneAt (c :: rest) with
    | some d2 => rw [hm] at h; exact matchPhoneAt_spec (c :: rest) ds (hm.trans h)
    | none => rw [hm] at h; exact ih ds h

/-- C6: the three normalization examples hold; every successful phone
extraction returns `+1` followed by exactly ten digits; and a
non-matching utterance leaves the `phone` field of the extractor output
exactly as it was. -/
theorem C6_phone_normalization :
    (extract_phone_number "(555) 123-4567" = some "+15551234567") ∧
    (extract_phone_number "555-123-4567" = some "+15551234567") ∧
    (extract_phone_number "5551234567" = some "+15551234567") ∧
    (∀ (text r : String), extract_phone_number text = some r →
      ∃ ds : List Char, r = "+1" ++ (⟨ds⟩ : String) ∧
        ds.length = 10 ∧ ds.all Char.isDigit = true) ∧
    (∀ (text : String) (known : Dict), extract_phone_number text = none →
      dictGet (extract_with_fallback text known) "phone" = dictGet known "phone") := by
  refine ⟨by decide, by decide, by decide, ?_, ?_⟩
  · intro text r h
    unfold extract_phone_number at h
    cases hs : searchPhone text.toList with
    | none => rw [hs] at h; cases h
    | some ds =>
      rw [hs] at h
      simp only [Option.some.injEq] at h
      obtain ⟨hlen, hall⟩ := searchPhone_spec text.toList ds hs
      exact ⟨ds, h.symm, hlen, hall⟩
  · intro text known h
    exact extract_keeps_phone text known h

/-- C6 witness: the shape statement applied at the first normalization
example. -/
theorem C6_witness :
    ∃ ds : List Char, "+15551234567" = "+1" ++ (⟨ds⟩ : String) ∧
      ds.length = 10 ∧ ds.all Char.isDigit = true :=
  C6_phone_normalization.2.2.2.1 "(555) 123-4567" "+15551234567" (by decide)

end VoiceAI
